import Mathlib

/-!
Shallow embedding of the `twitter` pallet from `src/pallets/twitter/src/lib.rs`
(a Substrate pallet implementing a minimal decentralized twitter).

Modelling choices:
* `TweetId = u128` is modelled as `Nat`; the 128-bit range shows up only in
  `alloc_id`, where `checked_add(1)` is modelled by the explicit bound
  `next + 1 < 2 ^ 128`.
* The three storage items (`Accounts`, `Tweets`, `NextTweetId`) become the
  fields of `PalletState`; dispatchables become state-passing functions
  returning the dispatch result together with the post-call state.
* Dispatch follows the `decl_module`-era Substrate semantics: storage writes
  performed before an error is returned are NOT rolled back, so an error
  result carries the state as mutated up to the point of failure.  (Relevant
  only in `comment`, whose `try_mutate_exists` step can fail after
  `alloc_id` has already stored the bumped counter.)
* `ensure_signed` (the authenticator) and `block_number` (the causal clock)
  are external collaborators; they appear as the `author` and `block_number`
  arguments of each operation.
* Event deposition has no effect on pallet storage and is omitted.
-/

namespace PolkaTweet

/-- Rust: `pub type TweetId = u128;` — identifiers are modelled as plain
naturals, with the 128-bit range bound made explicit in `alloc_id`. -/
abbrev TweetId := Nat

/-- The number of values of `u128`; `u128::MAX = u128Limit - 1`. -/
def u128Limit : Nat := 2 ^ 128

/-- Rust: `pub const MAX_TEXT_LEN: u64 = 140;`. -/
def MAX_TEXT_LEN : Nat := 140

/-- The `Tweet` struct.  `BlockNumber` is modelled as `Nat` (the external
causal clock's ordinal); `Vec<u8>` text as `List Nat`. -/
structure Tweet (AccountId : Type) where
  id : Nat
  create_at : Nat
  quote_tweet_id : Option Nat
  text : List Nat
  comments : List Nat
  author : AccountId
deriving DecidableEq

/-- The pallet's storage: `Accounts`, `Tweets` and `NextTweetId` from
`decl_storage!`.  Maps are total functions with the storage defaults
(`Vec::new()` resp. `None`) for absent keys. -/
structure PalletState (AccountId : Type) where
  accounts : AccountId → List Nat
  tweets : Nat → Option (Tweet AccountId)
  nextTweetId : Nat

/-- Genesis state: empty maps, counter `0` (the storage defaults). -/
def initState (AccountId : Type) : PalletState AccountId :=
  { accounts := fun _ => [], tweets := fun _ => none, nextTweetId := 0 }

/-- `decl_error!`: the pallet's error enum. -/
inductive Error where
  | TweetNotFound
  | TweetTooLong
  | NoAvailableTweetId
deriving DecidableEq

variable {A : Type} [DecidableEq A]

/-- `<Tweets<T>>::insert(i, t)`: unconditional upsert into the post store. -/
def PalletState.insertTweet (s : PalletState A) (i : Nat) (t : Tweet A) :
    PalletState A :=
  { s with tweets := fun j => if j = i then some t else s.tweets j }

/-- `<Accounts<T>>::mutate(&author, |tweets| tweets.push(new_id))`:
append `i` at the end of `a`'s index entry. -/
def PalletState.pushAccount (s : PalletState A) (a : A) (i : Nat) :
    PalletState A :=
  { s with accounts := fun b => if b = a then s.accounts b ++ [i] else s.accounts b }

/-- `alloc_id`: reads the counter `next`, computes `next.checked_add(1)`
(`none` exactly when `next = u128::MAX`), stores the bumped counter and
returns `next` as the fresh identifier. -/
def alloc_id (s : PalletState A) : Option (Nat × PalletState A) :=
  let next := s.nextTweetId
  if next + 1 < u128Limit then
    some (next, { s with nextTweetId := next + 1 })
  else
    none

/-- Dispatchable `new_tweet(origin, text)`: length check, allocate, build the
record (`quote_tweet_id = None`, empty `comments`), push into the author's
index, insert into the post store. -/
def new_tweet (s : PalletState A) (author : A) (block_number : Nat)
    (text : List Nat) : Except Error Nat × PalletState A :=
  if text.length ≤ 140 then
    match alloc_id s with
    | none => (Except.error Error.NoAvailableTweetId, s)
    | some (new_id, s₁) =>
      let tweet : Tweet A :=
        { id := new_id, create_at := block_number, quote_tweet_id := none,
          text := text, comments := [], author := author }
      (Except.ok new_id, (s₁.pushAccount author new_id).insertTweet new_id tweet)
  else
    (Except.error Error.TweetTooLong, s)

/-- Dispatchable `retweet(origin, tweet_id, text)`.  Note the guard is the
source's `ensure!(Self::tweets(tweet_id).is_none(), Error::TweetNotFound)`:
the call proceeds exactly when the target is ABSENT and fails with
`TweetNotFound` when the target exists. -/
def retweet (s : PalletState A) (author : A) (block_number : Nat)
    (tweet_id : Nat) (text : List Nat) : Except Error Nat × PalletState A :=
  if text.length ≤ 140 then
    if (s.tweets tweet_id).isNone then
      match alloc_id s with
      | none => (Except.error Error.NoAvailableTweetId, s)
      | some (new_id, s₁) =>
        let tweet : Tweet A :=
          { id := new_id, create_at := block_number, quote_tweet_id := some tweet_id,
            text := text, comments := [], author := author }
        (Except.ok new_id, (s₁.pushAccount author new_id).insertTweet new_id tweet)
    else
      (Except.error Error.TweetNotFound, s)
  else
    (Except.error Error.TweetTooLong, s)

/-- Dispatchable `comment(origin, text, tweet_id)`.  Carries the same
inverted `is_none` guard as `retweet`; after allocation,
`<Tweets<T>>::try_mutate_exists` appends the new id to the target's
`comments` or fails with `TweetNotFound` when the target is absent — the
error is returned with the counter already bumped by `alloc_id`
(the `decl_module`-era dispatcher does not roll storage back). -/
def comment (s : PalletState A) (author : A) (block_number : Nat)
    (text : List Nat) (tweet_id : Nat) : Except Error Nat × PalletState A :=
  if text.length ≤ 140 then
    if (s.tweets tweet_id).isNone then
      match alloc_id s with
      | none => (Except.error Error.NoAvailableTweetId, s)
      | some (new_id, s₁) =>
        let c : Tweet A :=
          { id := new_id, create_at := block_number, quote_tweet_id := none,
            text := text, comments := [], author := author }
        match s₁.tweets tweet_id with
        | none => (Except.error Error.TweetNotFound, s₁)
        | some target =>
          let s₂ := s₁.insertTweet tweet_id
            { target with comments := target.comments ++ [new_id] }
          (Except.ok new_id, (s₂.pushAccount author new_id).insertTweet new_id c)
    else
      (Except.error Error.TweetNotFound, s)
  else
    (Except.error Error.TweetTooLong, s)

/-- A pallet call together with its externally supplied author and block
number. -/
inductive Op (A : Type) where
  | newTweet (author : A) (block_number : Nat) (text : List Nat)
  | retweetOp (author : A) (block_number : Nat) (tweet_id : Nat) (text : List Nat)
  | commentOp (author : A) (block_number : Nat) (text : List Nat) (tweet_id : Nat)

/-- The author of a call (supplied by the authenticator collaborator). -/
def Op.author : Op A → A
  | .newTweet a _ _ => a
  | .retweetOp a _ _ _ => a
  | .commentOp a _ _ _ => a

/-- Dispatch one call against the state. -/
def applyOp (s : PalletState A) : Op A → Except Error Nat × PalletState A
  | .newTweet a bn text => new_tweet s a bn text
  | .retweetOp a bn tid text => retweet s a bn tid text
  | .commentOp a bn text tid => comment s a bn text tid

/-- Apply a batch of calls in order. -/
def runOps (s : PalletState A) : List (Op A) → PalletState A
  | [] => s
  | op :: rest => runOps (applyOp s op).2 rest

/-- The identifiers allocated to the successful calls of a batch, in call
order. -/
def allocatedIds (s : PalletState A) : List (Op A) → List Nat
  | [] => []
  | op :: rest =>
    let r := applyOp s op
    (match r.1 with
     | Except.ok i => [i]
     | Except.error _ => []) ++ allocatedIds r.2 rest

/-- The identifiers allocated to the successful calls of a batch that are
authored by `a`, in call order. -/
def authoredIds (a : A) (s : PalletState A) : List (Op A) → List Nat
  | [] => []
  | op :: rest =>
    let r := applyOp s op
    (match r.1 with
     | Except.ok i => if op.author = a then [i] else []
     | Except.error _ => []) ++ authoredIds a r.2 rest

/-- A state is reachable when some batch of calls produces it from genesis. -/
def Reachable (s : PalletState A) : Prop :=
  ∃ ops : List (Op A), runOps (initState A) ops = s

omit [DecidableEq A] in
@[simp]
theorem insertTweet_nextTweetId (s : PalletState A) (i : Nat) (t : Tweet A) :
    (s.insertTweet i t).nextTweetId = s.nextTweetId := rfl

@[simp]
theorem pushAccount_nextTweetId (s : PalletState A) (a : A) (i : Nat) :
    (s.pushAccount a i).nextTweetId = s.nextTweetId := rfl

omit [DecidableEq A] in
@[simp]
theorem insertTweet_accounts (s : PalletState A) (i : Nat) (t : Tweet A) :
    (s.insertTweet i t).accounts = s.accounts := rfl

@[simp]
theorem pushAccount_tweets (s : PalletState A) (a : A) (i : Nat) :
    (s.pushAccount a i).tweets = s.tweets := rfl

/-- C6: in any state whose allocator is not exhausted, `new_tweet` with text
of length at most 140 succeeds with the freshly allocated identifier (the
current counter value), and the record stored under that identifier has the
call's `text` and `author`, no `quote_tweet_id`, and empty `comments`. -/
theorem new_tweet_spec (s : PalletState A) (author : A) (bn : Nat) (text : List Nat)
    (hlen : text.length ≤ 140) (hfree : s.nextTweetId + 1 < u128Limit) :
    (new_tweet s author bn text).1 = Except.ok s.nextTweetId ∧
    ((new_tweet s author bn text).2).tweets s.nextTweetId =
      some { id := s.nextTweetId, create_at := bn, quote_tweet_id := none,
             text := text, comments := [], author := author } := by
  simp [new_tweet, alloc_id, hlen, hfree, PalletState.insertTweet, PalletState.pushAccount]

/-- Witness for C6 at a concrete input: genesis state, empty text. -/
theorem new_tweet_spec_witness :
    (new_tweet (initState Nat) 0 0 []).1 = Except.ok 0 ∧
    ((new_tweet (initState Nat) 0 0 []).2).tweets 0 =
      some { id := 0, create_at := 0, quote_tweet_id := none,
             text := [], comments := [], author := 0 } :=
  new_tweet_spec (initState Nat) 0 0 [] (by decide) (by decide)

/-- C7: with text longer than 140 bytes every operation fails with
`TweetTooLong` and returns the state unchanged (counter, post store and
account index included, since the whole `PalletState` is unchanged). -/
theorem too_long_spec (s : PalletState A) (a : A) (bn : Nat) (tid : Nat)
    (text : List Nat) (h : 140 < text.length) :
    new_tweet s a bn text = (Except.error Error.TweetTooLong, s) ∧
    retweet s a bn tid text = (Except.error Error.TweetTooLong, s) ∧
    comment s a bn text tid = (Except.error Error.TweetTooLong, s) := by
  have h' : ¬ text.length ≤ 140 := by omega
  simp [new_tweet, retweet, comment, h']

/-- Witness for C7 at a concrete input: a 141-byte text. -/
theorem too_long_spec_witness :
    new_tweet (initState Nat) 0 0 (List.replicate 141 0) =
      (Except.error Error.TweetTooLong, initState Nat) ∧
    retweet (initState Nat) 0 0 0 (List.replicate 141 0) =
      (Except.error Error.TweetTooLong, initState Nat) ∧
    comment (initState Nat) 0 0 (List.replicate 141 0) 0 =
      (Except.error Error.TweetTooLong, initState Nat) :=
  too_long_spec (initState Nat) 0 0 0 (List.replicate 141 0) (by simp)

/-- C1: the existence check of `retweet` is inverted.  At genesis (no post
`0` exists) `retweet` targeting `0` SUCCEEDS and stores a record with
`quote_tweet_id = some 0`, while after `new_tweet` has created post `0`,
`retweet` targeting the now-existing post `0` fails with `TweetNotFound` —
the exact opposite of "succeeds iff the target exists". -/
theorem retweet_inverted_check :
    (retweet (initState Nat) 0 0 0 []).1 = Except.ok 0 ∧
    ((retweet (initState Nat) 0 0 0 []).2).tweets 0 =
      some { id := 0, create_at := 0, quote_tweet_id := some 0,
             text := [], comments := [], author := 0 } ∧
    (retweet ((new_tweet (initState Nat) 0 0 []).2) 1 1 0 []).1 =
      Except.error Error.TweetNotFound :=
  ⟨rfl, rfl, rfl⟩

/-- C2: `comment` rejects a target that exists.  After `new_tweet` creates
post `0`, `comment` targeting post `0` fails with `TweetNotFound` even
though the target is present, so the claimed success-and-append behaviour
never occurs. -/
theorem comment_rejects_existing_target :
    (((new_tweet (initState Nat) 0 0 []).2).tweets 0).isSome = true ∧
    (comment ((new_tweet (initState Nat) 0 0 []).2) 1 1 [] 0).1 =
      Except.error Error.TweetNotFound :=
  ⟨rfl, rfl⟩

/-- C4: a failing `comment` leaves the counter changed.  At genesis,
`comment` targeting the absent post `0` fails with `TweetNotFound`, yet the
post-call counter is `1` while it was `0` before the call: the identifier
allocated before the `try_mutate_exists` failure is consumed. -/
theorem comment_consumes_id_on_error :
    (comment (initState Nat) 0 0 [] 0).1 = Except.error Error.TweetNotFound ∧
    ((comment (initState Nat) 0 0 [] 0).2).nextTweetId = 1 ∧
    (initState Nat).nextTweetId = 0 :=
  ⟨rfl, rfl, rfl⟩

/-- C5: a reachable state violates the quote-target-exists invariant.  From
genesis, `retweet` targeting the never-created post `999` succeeds, and the
resulting reachable state stores post `0` with `quote_tweet_id = some 999`
although no post `999` existed at creation time (the creation-time state is
genesis, whose store is empty). -/
theorem retweet_quotes_nonexistent :
    Reachable ((retweet (initState Nat) 0 0 999 []).2) ∧
    ((retweet (initState Nat) 0 0 999 []).2).tweets 0 =
      some { id := 0, create_at := 0, quote_tweet_id := some 999,
             text := [], comments := [], author := 0 } ∧
    (initState Nat).tweets 999 = none :=
  ⟨⟨[Op.retweetOp 0 0 999 []], rfl⟩, rfl, rfl⟩

omit [DecidableEq A] in
theorem alloc_id_eq_some {s : PalletState A} {v : Nat} {s' : PalletState A}
    (h : alloc_id s = some (v, s')) :
    v = s.nextTweetId ∧ s' = { s with nextTweetId := s.nextTweetId + 1 } ∧
    s.nextTweetId + 1 < u128Limit := by
  simp only [alloc_id] at h
  split at h
  · simp only [Option.some.injEq, Prod.mk.injEq] at h
    exact ⟨h.1.symm, h.2.symm, by assumption⟩
  · simp at h

/-- Outcome shape of a single dispatched call: either it succeeds with the
pre-call counter as identifier, bumping the counter and appending the
identifier to the author's index entry, or it fails, leaving the index
untouched and the counter either untouched or (for `comment` failing after
allocation) bumped. -/
theorem applyOp_cases (s : PalletState A) (op : Op A) :
    ((applyOp s op).1 = Except.ok s.nextTweetId ∧
     ((applyOp s op).2).nextTweetId = s.nextTweetId + 1 ∧
     ∀ b, ((applyOp s op).2).accounts b =
       if b = op.author then s.accounts b ++ [s.nextTweetId] else s.accounts b) ∨
    ((∃ e, (applyOp s op).1 = Except.error e) ∧
     (((applyOp s op).2).nextTweetId = s.nextTweetId ∨
      ((applyOp s op).2).nextTweetId = s.nextTweetId + 1) ∧
     ((applyOp s op).2).accounts = s.accounts) := by
  cases op with
  | newTweet a bn text =>
    simp only [applyOp, new_tweet, Op.author]
    split
    · split
      · exact Or.inr ⟨⟨_, rfl⟩, Or.inl rfl, rfl⟩
      · next new_id s₁ heq =>
        obtain ⟨h1, h2, _⟩ := alloc_id_eq_some heq
        subst h1
        refine Or.inl ⟨rfl, by simp [h2], fun b => ?_⟩
        simp [h2, PalletState.pushAccount, PalletState.insertTweet]
    · exact Or.inr ⟨⟨_, rfl⟩, Or.inl rfl, rfl⟩
  | retweetOp a bn tid text =>
    simp only [applyOp, retweet, Op.author]
    split
    · split
      · split
        · exact Or.inr ⟨⟨_, rfl⟩, Or.inl rfl, rfl⟩
        · next new_id s₁ heq =>
          obtain ⟨h1, h2, _⟩ := alloc_id_eq_some heq
          subst h1
          refine Or.inl ⟨rfl, by simp [h2], fun b => ?_⟩
          simp [h2, PalletState.pushAccount, PalletState.insertTweet]
      · exact Or.inr ⟨⟨_, rfl⟩, Or.inl rfl, rfl⟩
    · exact Or.inr ⟨⟨_, rfl⟩, Or.inl rfl, rfl⟩
  | commentOp a bn text tid =>
    simp only [applyOp, comment, Op.author]
    split
    · split
      · split
        · exact Or.inr ⟨⟨_, rfl⟩, Or.inl rfl, rfl⟩
        · next new_id s₁ heq =>
          obtain ⟨h1, h2, _⟩ := alloc_id_eq_some heq
          subst h1
          split
          · exact Or.inr ⟨⟨_, rfl⟩, Or.inr (by simp [h2]), by simp [h2]⟩
          · refine Or.inl ⟨rfl, by simp [h2], fun b => ?_⟩
            simp [h2, PalletState.pushAccount, PalletState.insertTweet]
      · exact Or.inr ⟨⟨_, rfl⟩, Or.inl rfl, rfl⟩
    · exact Or.inr ⟨⟨_, rfl⟩, Or.inl rfl, rfl⟩

/-- A dispatched call never decreases the counter. -/
theorem applyOp_nextTweetId_le (s : PalletState A) (op : Op A) :
    s.nextTweetId ≤ ((applyOp s op).2).nextTweetId := by
  rcases applyOp_cases s op with ⟨_, h2, _⟩ | ⟨_, h2, _⟩
  · omega
  · rcases h2 with h | h <;> omega

/-- Any identifier allocated during a batch is at least the counter at the
start of the batch. -/
theorem allocatedIds_lower_bound (ops : List (Op A)) :
    ∀ (s : PalletState A) (i : Nat),
      i ∈ allocatedIds s ops → s.nextTweetId ≤ i := by
  induction ops with
  | nil => intro s i h; simp [allocatedIds] at h
  | cons op rest ih =>
    intro s i h
    simp only [allocatedIds, List.mem_append] at h
    rcases h with h1 | h2
    · rcases applyOp_cases s op with ⟨hok, _, _⟩ | ⟨⟨e, herr⟩, _, _⟩
      · rw [hok] at h1
        simp at h1
        omega
      · rw [herr] at h1
        simp at h1
    · exact le_trans (applyOp_nextTweetId_le s op) (ih _ _ h2)

/-- C8: from any initial state and across any batch of calls, the
identifiers allocated to the successful calls are pairwise distinct and
strictly increasing in call order. -/
theorem allocatedIds_strictly_increasing (s : PalletState A) (ops : List (Op A)) :
    List.Pairwise (· < ·) (allocatedIds s ops) := by
  induction ops generalizing s with
  | nil => simp [allocatedIds]
  | cons op rest ih =>
    simp only [allocatedIds]
    rcases applyOp_cases s op with ⟨hok, hnext, _⟩ | ⟨⟨e, herr⟩, _, _⟩
    · rw [hok]
      simp only [List.singleton_append, List.pairwise_cons]
      refine ⟨fun j hj => ?_, ih _⟩
      have hlb := allocatedIds_lower_bound rest _ j hj
      rw [hnext] at hlb
      exact Nat.lt_of_succ_le hlb
    · rw [herr]
      simpa using ih (applyOp s op).2

/-- The account index after a batch is the pre-batch entry extended with the
identifiers allocated to the account's successful calls, in call order. -/
theorem runOps_accounts (ops : List (Op A)) :
    ∀ (s : PalletState A) (a : A),
      (runOps s ops).accounts a = s.accounts a ++ authoredIds a s ops := by
  induction ops with
  | nil => intro s a; simp [runOps, authoredIds]
  | cons op rest ih =>
    intro s a
    simp only [runOps, authoredIds]
    rw [ih]
    rcases applyOp_cases s op with ⟨hok, _, hacc⟩ | ⟨⟨e, herr⟩, _, hacc⟩
    · rw [hok, hacc a]
      by_cases hb : op.author = a
      · rw [if_pos hb.symm]
        simp [hb, List.append_assoc]
      · rw [if_neg (fun hh => hb hh.symm)]
        simp [hb]
    · rw [herr, hacc]
      simp

/-- C10: starting from genesis, after any batch of calls the account index
entry of `a` is exactly the list of identifiers allocated to the successful
calls authored by `a`, in the order those calls were accepted. -/
theorem accounts_index_spec (ops : List (Op A)) (a : A) :
    (runOps (initState A) ops).accounts a = authoredIds a (initState A) ops := by
  have h := runOps_accounts ops (initState A) a
  simpa [initState] using h

/-- C3 (amended): `comment` can never succeed.  With text within the bound
it fails with `TweetNotFound` whenever the target exists (inverted
pre-check) and also whenever the target is absent but an identifier can
still be allocated (`try_mutate_exists` then rejects); in the one remaining
case — target absent and allocator exhausted — it fails with
`NoAvailableTweetId` instead. -/
theorem comment_never_succeeds (s : PalletState A) (a : A) (bn : Nat)
    (text : List Nat) (tid : Nat) (hlen : text.length ≤ 140) :
    (∀ i, (comment s a bn text tid).1 ≠ Except.ok i) ∧
    ((s.tweets tid).isSome →
      (comment s a bn text tid).1 = Except.error Error.TweetNotFound) ∧
    (s.tweets tid = none → s.nextTweetId + 1 < u128Limit →
      (comment s a bn text tid).1 = Except.error Error.TweetNotFound) ∧
    (s.tweets tid = none → ¬ s.nextTweetId + 1 < u128Limit →
      (comment s a bn text tid).1 = Except.error Error.NoAvailableTweetId) := by
  cases h : s.tweets tid with
  | some t =>
    refine ⟨?_, ?_, ?_, ?_⟩ <;> simp [comment, hlen, h]
  | none =>
    by_cases hc : s.nextTweetId + 1 < u128Limit
    · refine ⟨?_, ?_, ?_, ?_⟩ <;> simp [comment, hlen, h, alloc_id, hc]
    · refine ⟨?_, ?_, ?_, ?_⟩ <;> simp [comment, hlen, h, alloc_id, hc]

/-- Witness for the amended C3 at a concrete input: genesis state, empty
text, target `0`. -/
theorem comment_never_succeeds_witness :
    (∀ i, (comment (initState Nat) 0 0 [] 0).1 ≠ Except.ok i) ∧
    (((initState Nat).tweets 0).isSome →
      (comment (initState Nat) 0 0 [] 0).1 = Except.error Error.TweetNotFound) ∧
    ((initState Nat).tweets 0 = none → (initState Nat).nextTweetId + 1 < u128Limit →
      (comment (initState Nat) 0 0 [] 0).1 = Except.error Error.TweetNotFound) ∧
    ((initState Nat).tweets 0 = none → ¬ (initState Nat).nextTweetId + 1 < u128Limit →
      (comment (initState Nat) 0 0 [] 0).1 = Except.error Error.NoAvailableTweetId) :=
  comment_never_succeeds (initState Nat) 0 0 [] 0 (by decide)

/-- A batch of `n` empty original posts by account `0`. -/
def postBatch (n : Nat) : List (Op Nat) :=
  List.replicate n (Op.newTweet 0 0 [])

/-- Running a batch of `n` original posts (while the allocator range allows
it) advances the counter by `n` and leaves every slot at or above the final
counter value untouched. -/
theorem runOps_postBatch (n : Nat) :
    ∀ s : PalletState Nat, s.nextTweetId + n < u128Limit →
      (runOps s (postBatch n)).nextTweetId = s.nextTweetId + n ∧
      ∀ j, s.nextTweetId + n ≤ j → (runOps s (postBatch n)).tweets j = s.tweets j := by
  induction n with
  | zero => intro s h; simp [postBatch, runOps]
  | succ n ih =>
    intro s h
    have hc : s.nextTweetId + 1 < u128Limit := by omega
    have h1 : ((applyOp s (Op.newTweet 0 0 [])).2).nextTweetId = s.nextTweetId + 1 := by
      simp [applyOp, new_tweet, alloc_id, hc]
    have h2 : ∀ j, s.nextTweetId + 1 ≤ j →
        ((applyOp s (Op.newTweet 0 0 [])).2).tweets j = s.tweets j := by
      intro j hj
      have hne : j ≠ s.nextTweetId := by omega
      simp [applyOp, new_tweet, alloc_id, hc, PalletState.insertTweet,
        PalletState.pushAccount, hne]
    have hrw : postBatch (n + 1) = Op.newTweet 0 0 [] :: postBatch n := by
      simp [postBatch, List.replicate_succ]
    rw [hrw]
    simp only [runOps]
    obtain ⟨ihA, ihB⟩ := ih ((applyOp s (Op.newTweet 0 0 [])).2) (by rw [h1]; omega)
    constructor
    · rw [ihA, h1]; omega
    · intro j hj
      rw [ihB j (by rw [h1]; omega), h2 j (by omega)]

/-- The reachable state in which every identifier has been allocated: the
result of `u128::MAX` successful original posts from genesis. -/
def sExhausted : PalletState Nat :=
  runOps (initState Nat) (postBatch (u128Limit - 1))

/-- In any state with an absent target and an exhausted allocator, `comment`
with short text fails with `NoAvailableTweetId`. -/
theorem comment_exhausted_absent (s : PalletState A) (a : A) (bn : Nat)
    (text : List Nat) (tid : Nat) (hlen : text.length ≤ 140)
    (htid : s.tweets tid = none) (hno : ¬ s.nextTweetId + 1 < u128Limit) :
    (comment s a bn text tid).1 = Except.error Error.NoAvailableTweetId := by
  simp [comment, hlen, htid, alloc_id, hno]

/-- C3 counterexample: in the reachable allocator-exhausted state, a
`comment` call with short text targeting the absent post `u128::MAX` fails
with `NoAvailableTweetId`, not `TweetNotFound`. -/
theorem comment_exhausted_not_tweet_not_found :
    Reachable sExhausted ∧
    ([] : List Nat).length ≤ 140 ∧
    (comment sExhausted 0 0 [] (u128Limit - 1)).1 =
      Except.error Error.NoAvailableTweetId ∧
    Except.error (α := Nat) Error.NoAvailableTweetId ≠
      Except.error (α := Nat) Error.TweetNotFound := by
  have hpos : 0 < u128Limit := by norm_num [u128Limit]
  have hse : sExhausted = runOps (initState Nat) (postBatch (u128Limit - 1)) := rfl
  have h := runOps_postBatch (u128Limit - 1) (initState Nat)
    (by simp only [initState]; omega)
  rw [show (initState Nat).nextTweetId = 0 from rfl] at h
  obtain ⟨hA, hB⟩ := h
  have htw : sExhausted.tweets (u128Limit - 1) = none := by
    rw [hse, hB (u128Limit - 1) (by omega)]; rfl
  have hnext : sExhausted.nextTweetId = u128Limit - 1 := by
    rw [hse, hA]; omega
  have hno : ¬ sExhausted.nextTweetId + 1 < u128Limit := by
    rw [hnext]; omega
  exact ⟨⟨postBatch (u128Limit - 1), hse.symm⟩, by decide,
    comment_exhausted_absent sExhausted 0 0 [] (u128Limit - 1) (by decide) htw hno,
    by simp⟩

/-- The (unreachable only by convention — any counter value is allowed in a
`PalletState`) state whose counter sits at `u128::MAX` with empty maps. -/
def sMax : PalletState Nat :=
  { accounts := fun _ => [], tweets := fun _ => none, nextTweetId := u128Limit - 1 }

/-- C9 counterexample: with the counter at `u128::MAX`, a call whose text is
141 bytes long fails with `TweetTooLong`, not `NoAvailableTweetId` — so it
is not the case that every operation fails with `NoAvailableTweetId` once
the allocator is exhausted. -/
theorem exhausted_op_not_always_no_available_id :
    (new_tweet sMax 0 0 (List.replicate 141 0)).1 = Except.error Error.TweetTooLong ∧
    Error.TweetTooLong ≠ Error.NoAvailableTweetId := by
  constructor
  · have hlong : ¬ (List.replicate 141 (0 : Nat)).length ≤ 140 := by simp
    simp [new_tweet, hlong]
  · simp

/-- C9 (amended): `alloc_id` maps counter `n` to identifier `n` and new
counter `n + 1` when `n + 1` is representable, and fails otherwise leaving
the state unchanged; when it fails, every operation that reaches the
allocation step (text within the bound, and for `retweet`/`comment` an
absent target, the condition under which the inverted pre-check lets them
proceed) fails with `NoAvailableTweetId` and returns the state unchanged. -/
theorem alloc_id_spec (s : PalletState A) (a : A) (bn : Nat) (text : List Nat)
    (tid : Nat) :
    (s.nextTweetId + 1 < u128Limit →
      alloc_id s = some (s.nextTweetId, { s with nextTweetId := s.nextTweetId + 1 })) ∧
    (¬ s.nextTweetId + 1 < u128Limit →
      alloc_id s = none ∧
      (text.length ≤ 140 →
        new_tweet s a bn text = (Except.error Error.NoAvailableTweetId, s)) ∧
      (text.length ≤ 140 → s.tweets tid = none →
        retweet s a bn tid text = (Except.error Error.NoAvailableTweetId, s)) ∧
      (text.length ≤ 140 → s.tweets tid = none →
        comment s a bn text tid = (Except.error Error.NoAvailableTweetId, s))) := by
  constructor
  · intro hc
    simp [alloc_id, hc]
  · intro hc
    refine ⟨by simp [alloc_id, hc], ?_, ?_, ?_⟩
    · intro hlen
      simp [new_tweet, alloc_id, hc, hlen]
    · intro hlen htid
      simp [retweet, alloc_id, hc, hlen, htid]
    · intro hlen htid
      simp [comment, alloc_id, hc, hlen, htid]

/-- Witness for the amended C9: the non-exhausted branch at genesis and the
exhausted branch at the counter-maximal state `sMax`. -/
theorem alloc_id_spec_witness :
    alloc_id (initState Nat) = some (0, { initState Nat with nextTweetId := 1 }) ∧
    (alloc_id sMax = none ∧
     new_tweet sMax 0 0 [] = (Except.error Error.NoAvailableTweetId, sMax) ∧
     retweet sMax 0 0 0 [] = (Except.error Error.NoAvailableTweetId, sMax) ∧
     comment sMax 0 0 [] 0 = (Except.error Error.NoAvailableTweetId, sMax)) := by
  constructor
  · exact (alloc_id_spec (initState Nat) 0 0 [] 0).1 (by norm_num [initState, u128Limit])
  · have h := (alloc_id_spec sMax 0 0 [] 0).2 (by norm_num [sMax, u128Limit])
    exact ⟨h.1, h.2.1 (by decide), h.2.2.1 (by decide) rfl, h.2.2.2 (by decide) rfl⟩

end PolkaTweet
